import Mathlib

/-!
# Netboot orchestrator — iSCSI image/target lifecycle core, shallow embedding

A verification development for the iSCSI image/target lifecycle manager
(`backend/app/services/image_service.py`, `backend/app/database.py`, and the
device-metrics / stall-detection code in `backend/app/api/boot.py`).

Modelling conventions:
* Python dicts used as keyed record stores (`images.json`, `profiles.json`)
  are modelled as association lists with first-occurrence lookup; Python
  dict-assignment keeps the position of an existing key, which `setA` mirrors.
* External `tgtadm` daemon state is modelled as a list of registered targets;
  every daemon command outcome (success / failure, and which registration step
  fails) is an explicit input parameter, since the daemon is an external
  process.
* Timestamps (`datetime.now().isoformat()`) are modelled as a `Nat` "now"
  threaded through the operations.
* Free-text parsing (`tgtadm` show output, `ss -tinp` output) is modelled at
  the boundary of the extraction helpers: the embedded metrics function takes
  the already-extracted fields (connection count, normalized remote IPs,
  optional native byte counters, per-IP socket counters, per-target view of
  the global listing) as inputs, and reimplements all decision logic from the
  source on top of them.
-/

namespace NetbootOrch

/-! ## Association-list model of Python dict stores -/

/-- First-occurrence lookup, `d.get(k)`. -/
def getA {α : Type} : List (String × α) → String → Option α
  | [], _ => none
  | (k, v) :: rest, key => if k = key then some v else getA rest key

/-- Dict assignment `d[k] = v`: update in place if present, else append. -/
def setA {α : Type} : List (String × α) → String → α → List (String × α)
  | [], key, v => [(key, v)]
  | (k, w) :: rest, key, v =>
      if k = key then (k, v) :: rest else (k, w) :: setA rest key v

/-- In-place update of the value at a key (`d[k].update(...)`); no-op when the
key is absent. -/
def updA {α : Type} : List (String × α) → String → (α → α) → List (String × α)
  | [], _, _ => []
  | (k, w) :: rest, key, f =>
      if k = key then (k, f w) :: rest else (k, w) :: updA rest key f

/-- Dict deletion `del d[k]` (removes the first occurrence). -/
def delA {α : Type} : List (String × α) → String → List (String × α)
  | [], _ => []
  | (k, w) :: rest, key =>
      if k = key then rest else (k, w) :: delA rest key

/-! ## External tgtd daemon model -/

/-- A target registered on the tgtd daemon.  `lun` is the backing-store path
attached as LUN 1 (none while only the bare target exists), `bound` records
whether the `-I ALL` initiator binding was issued. -/
structure Target where
  tid : Nat
  targetName : String
  lun : Option String
  bound : Bool
deriving DecidableEq

/-- The IQN used by the service: `f"{self.iqn_prefix}:{name}"` with
`iqn_prefix = "iqn.2024.netboot"`. -/
def iqn (name : String) : String := "iqn.2024.netboot:" ++ name

/-- `IscsiService._get_next_tid`: max of the tids reported by the daemon
listing, plus one; 1 when the listing is empty. -/
def nextTid (d : List Target) : Nat :=
  (d.map (·.tid)).foldl Nat.max 0 + 1

/-- Forced target delete (`tgtadm --op delete --mode target --tid t --force`);
`ok = false` models a failed daemon call, which leaves the daemon unchanged. -/
def deleteTarget (d : List Target) (t : Nat) (ok : Bool) : List Target :=
  if ok then d.filter (fun tgt => tgt.tid ≠ t) else d

/-- Attach a backing store as LUN 1 of the target with the given tid. -/
def setLun (d : List Target) (t : Nat) (path : String) : List Target :=
  d.map (fun tgt => if tgt.tid = t then { tgt with lun := some path } else tgt)

/-- Record the `-I ALL` binding on the target with the given tid. -/
def setBound (d : List Target) (t : Nat) : List Target :=
  d.map (fun tgt => if tgt.tid = t then { tgt with bound := true } else tgt)

/-- Which of the three separate daemon calls of `_register_target` fails. -/
inductive RegStep where
  | createTarget
  | addLun
  | bind
deriving DecidableEq

/-- The error text `_register_target` returns for a failure at each step (the
daemon's stderr detail is abstracted away; the step-identifying prefix is the
source's). -/
def stepError : RegStep → String
  | .createTarget => "tgtadm new target failed"
  | .addLun => "tgtadm add LUN failed"
  | .bind => "tgtadm bind failed"

/-- `IscsiService._register_target(name, file_path)`: allocate the next tid
from the daemon listing, create the target, attach the LUN, bind initiators.
`fail` selects which daemon call (if any) reports failure.  Mirrors the
source exactly: an error returns immediately with whatever daemon state the
earlier steps already produced — there is no cleanup of a partially created
target. -/
def registerTarget (d : List Target) (name filePath : String)
    (fail : Option RegStep) : List Target × Except String (Nat × String) :=
  let tid := nextTid d
  let targetName := iqn name
  if fail = some RegStep.createTarget then
    (d, .error (stepError .createTarget))
  else
    let d1 := d ++ [⟨tid, targetName, none, false⟩]
    if fail = some RegStep.addLun then
      (d1, .error (stepError .addLun))
    else
      let d2 := setLun d1 tid filePath
      if fail = some RegStep.bind then
        (d2, .error (stepError .bind))
      else
        (setBound d2 tid, .ok (tid, targetName))

/-! ## Persisted records and system state -/

/-- A persisted Image record (`images.json` entry), fields as written by
`create_image` / `copy_image` / `rename_image` / `link_device`. -/
structure ImageRec where
  id : String
  name : String
  size_gb : Nat
  device_type : String
  target_name : String
  tid : Option Nat
  file_path : String
  assigned_to : Option String
  status : String
  created_at : Nat
  copied_from : Option String
deriving DecidableEq

/-- A persisted Device record (`profiles.json` entry).  `Database.create_device`
stamps `created_at`; `Database.update_device` stamps `updated_at` on every
update. -/
structure DeviceRec where
  mac : String
  device_type : String
  name : String
  enabled : Bool
  image_id : Option String
  created_at : Nat
  updated_at : Option Nat
deriving DecidableEq

/-- A `.img` file in the images directory: stem (file name without the `.img`
suffix), byte size, and creation time (`st_ctime`). -/
structure FileEnt where
  stem : String
  bytes : Nat
  ctime : Nat
deriving DecidableEq

/-- Combined persisted + external state the lifecycle operations act on. -/
structure SysState where
  fs : List FileEnt
  daemon : List Target
  images : List (String × ImageRec)
  devices : List (String × DeviceRec)
deriving DecidableEq

/-- The empty store (fresh deployment). -/
def emptyState : SysState := ⟨[], [], [], []⟩

/-- `(self.images_path / f"{name}.img").exists()` with the default images
path. -/
def fileExists (fs : List FileEnt) (stem : String) : Bool :=
  (fs.find? (fun f => f.stem = stem)).isSome

def findFile (fs : List FileEnt) (stem : String) : Option FileEnt :=
  fs.find? (fun f => f.stem = stem)

/-- `str(self.images_path / f"{name}.img")` with the default images path. -/
def filePathOf (name : String) : String := "/iscsi-images/" ++ name ++ ".img"

/-- `Path.unlink(missing_ok=True)` on the backing file of `stem`. -/
def removeFile (fs : List FileEnt) (stem : String) : List FileEnt :=
  fs.filter (fun f => f.stem ≠ stem)

/-- `Path.rename`: the file with stem `a` becomes the file with stem `b`. -/
def renameFile (fs : List FileEnt) (a b : String) : List FileEnt :=
  fs.map (fun f => if f.stem = a then { f with stem := b } else f)

/-- Python truthiness of `d.get(key)` for an optional string field: `None`
and the empty string are falsy. -/
def truthyOpt : Option String → Bool
  | none => false
  | some s => s ≠ ""

/-- Python `s.strip()` (model of `String.strip` over the character list). -/
def pyStrip (s : String) : String :=
  String.mk (((s.toList.dropWhile (fun c => c.isWhitespace)).reverse.dropWhile
    (fun c => c.isWhitespace)).reverse)

/-- `f"Device-{mac[-5:].replace(':', '')}"`. -/
def deviceDefaultName (mac : String) : String :=
  "Device-" ++ String.mk ((mac.toList.drop (mac.length - 5)).filter (fun c => c ≠ ':'))

/-! ## Lifecycle operations (`IscsiService`) -/

/-- One gibibyte (`truncate -s {size_gb}G` allocates `size_gb * 2^30` bytes). -/
def gb : Nat := 1024 ^ 3

/-- `IscsiService.create_image(name, size_gb)`.  `truncOk` is the outcome of
the `truncate` command, `regFail` the outcome schedule of `_register_target`.
On registration failure the just-created file is unlinked
(`missing_ok=True`), the partial daemon state is kept (the source performs no
daemon cleanup here), and the error is returned; the Image record is written
only on full success. -/
def create_image (st : SysState) (now : Nat) (name : String) (size_gb : Nat)
    (truncOk : Bool) (regFail : Option RegStep) : SysState × Except String String :=
  if fileExists st.fs name then
    (st, .error s!"Image \x27{name}\x27 already exists")
  else if ¬truncOk then
    (st, .error "Failed to create image file")
  else
    let fs1 := st.fs ++ [⟨name, size_gb * gb, now⟩]
    match registerTarget st.daemon name (filePathOf name) regFail with
    | (d1, .error e) => ({ st with fs := removeFile fs1 name, daemon := d1 }, .error e)
    | (d1, .ok (tid, targetName)) =>
        let rec1 : ImageRec :=
          { id := name
            name := name
            size_gb := size_gb
            device_type := "x64"
            target_name := targetName
            tid := some tid
            file_path := filePathOf name
            assigned_to := none
            status := "available"
            created_at := now
            copied_from := none }
        ({ st with fs := fs1, daemon := d1, images := setA st.images name rec1 },
         .ok s!"created {name}")

/-- Python `round(bytes / 2**30)` (round-half-to-even), used by `copy_image`
to derive `size_gb` from the destination file's size.  The float division is
modelled as exact rational rounding. -/
def pyRoundDiv (n d : Nat) : Nat :=
  let q := n / d
  let r := n % d
  if 2 * r < d then q
  else if 2 * r > d then q + 1
  else if q % 2 = 0 then q else q + 1

/-- `IscsiService.copy_image(source_name, dest_name)`.  `cpOk` is the outcome
of the sparse `cp`; `regFail` the registration outcome schedule. -/
def copy_image (st : SysState) (now : Nat) (source_name dest_name : String)
    (cpOk : Bool) (regFail : Option RegStep) : SysState × Except String String :=
  if ¬fileExists st.fs source_name then
    (st, .error s!"Source image \x27{source_name}\x27 not found")
  else if fileExists st.fs dest_name then
    (st, .error s!"Destination \x27{dest_name}\x27 already exists")
  else if ¬cpOk then
    (st, .error "Copy failed")
  else
    let srcBytes := (findFile st.fs source_name).elim 0 (·.bytes)
    let fs1 := st.fs ++ [⟨dest_name, srcBytes, now⟩]
    let size_gb := pyRoundDiv srcBytes gb
    match registerTarget st.daemon dest_name (filePathOf dest_name) regFail with
    | (d1, .error e) => ({ st with fs := removeFile fs1 dest_name, daemon := d1 }, .error e)
    | (d1, .ok (tid, targetName)) =>
        let rec1 : ImageRec :=
          { id := dest_name
            name := dest_name
            size_gb := size_gb
            device_type := "x64"
            target_name := targetName
            tid := some tid
            file_path := filePathOf dest_name
            assigned_to := none
            status := "available"
            created_at := now
            copied_from := some source_name }
        ({ st with fs := fs1, daemon := d1, images := setA st.images dest_name rec1 },
         .ok s!"copied {dest_name}")

/-- `IscsiService.rename_image(source_name, dest_name)`.  `delOldOk` is the
outcome of the forced delete of the old target, `regDest` the registration
outcome for the new name, `regSrcAgain` the outcome of the restore
registration attempted when the destination registration fails. -/
def rename_image (st : SysState) (now : Nat) (srcRaw destRaw : String)
    (delOldOk : Bool) (regDest regSrcAgain : Option RegStep) :
    SysState × Except String String :=
  let source_name := pyStrip srcRaw
  let dest_name := pyStrip destRaw
  if source_name = "" ∨ dest_name = "" then
    (st, .error "Source and destination names are required")
  else if source_name = dest_name then
    (st, .error "Destination name must be different")
  else
    match getA st.images source_name with
    | none => (st, .error s!"Image \x27{source_name}\x27 not found")
    | some source_image =>
      if (getA st.images dest_name).isSome then
        (st, .error s!"Image \x27{dest_name}\x27 already exists")
      else if ¬fileExists st.fs source_name then
        (st, .error ("Source image file not found: " ++ filePathOf source_name))
      else if fileExists st.fs dest_name then
        (st, .error ("Destination file already exists: " ++ filePathOf dest_name))
      else
        let old_tid := source_image.tid
        let d1 := match old_tid with
          | some t => deleteTarget st.daemon t delOldOk
          | none => st.daemon
        let fs1 := renameFile st.fs source_name dest_name
        match registerTarget d1 dest_name (filePathOf dest_name) regDest with
        | (d2, .error e) =>
            let fs2 := renameFile fs1 dest_name source_name
            let d3 := match old_tid with
              | some _ =>
                  (registerTarget d2 source_name (filePathOf source_name) regSrcAgain).1
              | none => d2
            ({ st with fs := fs2, daemon := d3 }, .error e)
        | (d2, .ok (tid, targetName)) =>
            let updated : ImageRec :=
              { source_image with
                id := dest_name
                name := dest_name
                tid := some tid
                target_name := targetName
                file_path := filePathOf dest_name
                created_at := now }
            let imgs := delA (setA st.images dest_name updated) source_name
            let devs :=
              if truthyOpt source_image.assigned_to then
                match source_image.assigned_to with
                | some m =>
                    updA st.devices m
                      (fun dv => { dv with image_id := some dest_name, updated_at := some now })
                | none => st.devices
              else st.devices
            ({ st with fs := fs1, daemon := d2, images := imgs, devices := devs },
             .ok s!"renamed {dest_name}")

/-- `IscsiService.link_device(image_name, mac)`. -/
def link_device (st : SysState) (now : Nat) (image_name mac : String) :
    SysState × Except String String :=
  match getA st.images image_name with
  | none => (st, .error s!"Image \x27{image_name}\x27 not found")
  | some image =>
      if truthyOpt image.assigned_to ∧ image.assigned_to ≠ some mac then
        (st, .error ("Image already assigned to " ++ image.assigned_to.getD ""))
      else
        let imgs := updA st.images image_name
          (fun r => { r with assigned_to := some mac, status := "linked" })
        let devs := match getA st.devices mac with
          | some _ =>
              updA st.devices mac
                (fun dv => { dv with image_id := some image_name, updated_at := some now })
          | none =>
              setA st.devices mac
                { mac := mac
                  device_type := "x64"
                  name := deviceDefaultName mac
                  enabled := true
                  image_id := some image_name
                  created_at := now
                  updated_at := none }
        ({ st with images := imgs, devices := devs },
         .ok s!"Device {mac} linked to image \x27{image_name}\x27")

/-- `IscsiService.unlink_device(mac)`: clear the assignment of the first image
found with `assigned_to == mac` (iteration order of `get_all_images`), then
clear the device's `image_id` (`update_device` is a no-op when the device
record is absent). -/
def unlink_device (st : SysState) (now : Nat) (mac : String) :
    SysState × Except String String :=
  let imgs := match st.images.find? (fun p => p.2.assigned_to = some mac) with
    | some p =>
        updA st.images p.2.id
          (fun r => { r with assigned_to := none, status := "available" })
    | none => st.images
  let devs := match getA st.devices mac with
    | some _ =>
        updA st.devices mac
          (fun dv => { dv with image_id := none, updated_at := some now })
    | none => st.devices
  ({ st with images := imgs, devices := devs }, .ok s!"Device {mac} unlinked")

/-! ## `list_images` -/

/-- `round(bytes / 1024**3, 2)` represented in hundredths of a GB (exact
rational round-half-to-even; avoids floats). -/
def gbHundredths (bytes : Nat) : Nat := pyRoundDiv (bytes * 100) gb

/-- One entry of the `list_images` result.  `size_gb_h` is the entry's
`size_gb` field in hundredths of a GB (an integral record value `g` appears
as `100 * g`; an orphan's rounded value appears as `gbHundredths bytes`). -/
structure ListedImage where
  id : String
  name : String
  size_gb_h : Nat
  file_exists : Bool
  actual_size_bytes : Option Nat
  actual_size_gb_h : Option Nat
  file_path : String
  assigned_to : Option String
  status : String
  created_at : Nat
deriving DecidableEq

/-- Enrichment of a persisted record with filesystem info (first loop of
`list_images`). -/
def enrichImage (fs : List FileEnt) (r : ImageRec) : ListedImage :=
  match findFile fs r.id with
  | some f =>
      { id := r.id
        name := r.name
        size_gb_h := 100 * r.size_gb
        file_exists := true
        actual_size_bytes := some f.bytes
        actual_size_gb_h := some (gbHundredths f.bytes)
        file_path := r.file_path
        assigned_to := r.assigned_to
        status := r.status
        created_at := r.created_at }
  | none =>
      { id := r.id
        name := r.name
        size_gb_h := 100 * r.size_gb
        file_exists := false
        actual_size_bytes := none
        actual_size_gb_h := none
        file_path := r.file_path
        assigned_to := r.assigned_to
        status := r.status
        created_at := r.created_at }

/-- Entry built for an untracked `.img` file (orphan-discovery loop of
`list_images`). -/
def orphanEntry (f : FileEnt) : ListedImage :=
  { id := f.stem
    name := f.stem
    size_gb_h := gbHundredths f.bytes
    file_exists := true
    actual_size_bytes := some f.bytes
    actual_size_gb_h := some (gbHundredths f.bytes)
    file_path := filePathOf f.stem
    assigned_to := none
    status := "unregistered"
    created_at := f.ctime }

/-- `IscsiService.list_images()`: all persisted records enriched with
filesystem info, followed by an entry for every `.img` file whose stem is not
among the persisted records' ids. -/
def list_images (st : SysState) : List ListedImage :=
  let dbImgs := st.images.map (fun p => enrichImage st.fs p.2)
  let orphans :=
    (st.fs.filter (fun f => ¬ st.images.any (fun p => p.2.id = f.stem))).map orphanEntry
  dbImgs ++ orphans

example : pyStrip " ab " = "ab" := by decide
example : deviceDefaultName "aa:bb:cc:dd:ee:01" = "Device-ee01" := by decide

/-! ## Connection telemetry (`get_image_connection_metrics`)

The free-text extraction helpers (`re.findall` over `tgtadm` output,
`_extract_first_int`, `ss -tinp` parsing) are taken as inputs: the embedded
function receives the extracted connection count, the normalized remote-IP
list, the four optional native byte counters, the per-remote-IP socket
counters, and the per-target view of the global listing, and implements every
decision made on them by the source. -/

/-- Byte counters of one `ESTAB :3260` TCP socket, summed per remote IP
(`_get_iscsi_socket_counters`). -/
structure SockEntry where
  tx_bytes : Nat
  rx_bytes : Nat
deriving DecidableEq

/-- One target block of the global `tgtadm` listing as parsed by
`_get_active_target_remote_ip_refcounts`: whether a `Connection:` line was
seen, and the (distinct) remote IPs seen in the block. -/
structure TargetView where
  hasConnection : Bool
  ips : List String
deriving DecidableEq

/-- The targets counted as active by `flush_current`: a connection line was
seen and at least one IP was collected. -/
def activeTargetViews (ts : List TargetView) : List TargetView :=
  ts.filter (fun t => t.hasConnection && !t.ips.isEmpty)

/-- The `active_targets` total returned by
`_get_active_target_remote_ip_refcounts`. -/
def activeTargetCount (ts : List TargetView) : Nat :=
  (activeTargetViews ts).length

/-- `refcounts[ip]`: how many active targets list `ip` among their remote
IPs. -/
def ipRefcount (ts : List TargetView) (ip : String) : Nat :=
  ((activeTargetViews ts).filter (fun t => t.ips.contains ip)).length

/-- `socket_stats.get(remote_ip)` (first occurrence). -/
def getSock (stats : List (String × SockEntry)) (ip : String) : Option SockEntry :=
  (stats.find? (fun p => p.1 = ip)).map (·.2)

/-- Extracted inputs of the metrics computation (successful `tgtadm` show for
the resolved tid). -/
structure MetricsIn where
  connectionCount : Nat
  remoteIps : List String
  readBytes : Option Nat
  writeBytes : Option Nat
  rxBytes : Option Nat
  txBytes : Option Nat
  socketStats : List (String × SockEntry)
  targets : List TargetView
deriving DecidableEq

/-- The `network` view of the result. -/
structure NetView where
  rx_bytes : Option Nat
  tx_bytes : Option Nat
  source : String
deriving DecidableEq

/-- The `disk_io` view of the result. -/
structure DiskView where
  read_bytes : Option Nat
  write_bytes : Option Nat
  source : String
deriving DecidableEq

/-- The fields of the `get_image_connection_metrics` result that the
attribution logic decides. -/
structure MetricsOut where
  attribution_confidence : String
  active : Bool
  session_count : Nat
  remote_ips : List String
  network : NetView
  disk_io : DiskView
deriving DecidableEq

/-- The attribution logic of `IscsiService.get_image_connection_metrics`
(source lines 220–339): session counting, the single-socket inference when
tgtd reports no session, native `target_stats` counters, the per-IP socket
fallback with its shared-IP ambiguity check, and the single-session
single-socket hint. -/
def connectionMetrics (inp : MetricsIn) : MetricsOut :=
  let sessionCount0 := max inp.connectionCount inp.remoteIps.length
  let active0 : Bool := decide (sessionCount0 > 0)
  let (active1, sessionCount1, remoteIps1) :=
    if !active0 && decide (inp.socketStats.length = 1) then
      match inp.socketStats with
      | (ip, _) :: _ => (true, 1, [ip])
      | [] => (active0, sessionCount0, inp.remoteIps)
    else (active0, sessionCount0, inp.remoteIps)
  let diskSrc0 :=
    if inp.readBytes.isSome || inp.writeBytes.isSome then "target_stats" else "unavailable"
  let netSrc0 :=
    if inp.rxBytes.isSome || inp.txBytes.isSome then "target_stats" else "unavailable"
  let conf0 :=
    if inp.readBytes.isSome || inp.writeBytes.isSome || inp.rxBytes.isSome
        || inp.txBytes.isSome then "high" else "unknown"
  if active1 then
    let ambiguousIps := remoteIps1.filter (fun ip => ipRefcount inp.targets ip > 1)
    let candidateIps := remoteIps1.filter (fun ip => ipRefcount inp.targets ip ≤ 1)
    let matchedEntries := candidateIps.filterMap (fun ip => getSock inp.socketStats ip)
    let matched0 := !matchedEntries.isEmpty
    let totalRx0 := (matchedEntries.map (·.rx_bytes)).sum
    let totalTx0 := (matchedEntries.map (·.tx_bytes)).sum
    let (matched, totalRx, totalTx) :=
      if !matched0 && decide (sessionCount1 = 1) && decide (inp.socketStats.length = 1)
          && decide (activeTargetCount inp.targets ≤ 1) then
        match inp.socketStats with
        | (_, e) :: _ => (true, e.rx_bytes, e.tx_bytes)
        | [] => (matched0, totalRx0, totalTx0)
      else (matched0, totalRx0, totalTx0)
    if matched then
      let (netRx, netTx, netSrc, conf1) :=
        if netSrc0 = "unavailable" then
          (some totalRx, some totalTx, "socket_counters", "high")
        else (inp.rxBytes, inp.txBytes, netSrc0, conf0)
      let (ioR, ioW, ioSrc, conf2) :=
        if diskSrc0 = "unavailable" then
          (some totalTx, some totalRx, "socket_counters_estimate", "high")
        else (inp.readBytes, inp.writeBytes, diskSrc0, conf1)
      ⟨conf2, active1, sessionCount1, remoteIps1, ⟨netRx, netTx, netSrc⟩, ⟨ioR, ioW, ioSrc⟩⟩
    else if !ambiguousIps.isEmpty then
      ⟨"ambiguous", active1, sessionCount1, remoteIps1,
       ⟨inp.rxBytes, inp.txBytes, netSrc0⟩, ⟨inp.readBytes, inp.writeBytes, diskSrc0⟩⟩
    else
      ⟨conf0, active1, sessionCount1, remoteIps1,
       ⟨inp.rxBytes, inp.txBytes, netSrc0⟩, ⟨inp.readBytes, inp.writeBytes, diskSrc0⟩⟩
  else
    ⟨conf0, active1, sessionCount1, remoteIps1,
     ⟨inp.rxBytes, inp.txBytes, netSrc0⟩, ⟨inp.readBytes, inp.writeBytes, diskSrc0⟩⟩

/-! ## Stall detection (`get_device_metrics`, boot.py lines 2027–2086)

The per-poll stall evaluation.  The persistence writes the source performs
through `db.update_device_transfer_fields` are modelled as field merges on the
per-MAC TransferState record.

Modelled from the spec: `Database.update_device_transfer_fields` is invoked by
this path but is not defined anywhere under the repository sources; following
the spec (the Persistence collaborator stores per-MAC TransferState records
that every telemetry poll mutates), it is modelled as merging the given
fields into the device record. -/

/-- The persisted per-MAC stall fields read and written by the evaluation. -/
structure TransferSt where
  stall_state : String
  stall_last_total_bytes : Option Nat
  stall_last_progress_at : Option Nat
  stall_last_progress_log_at : Option Nat
deriving DecidableEq

/-- The reset/baseline TransferState: no recorded total, no recorded progress
timestamps. -/
def resetTransferSt : TransferSt :=
  { stall_state := "idle"
    stall_last_total_bytes := none
    stall_last_progress_at := none
    stall_last_progress_log_at := none }

/-- One telemetry poll's inputs to the stall evaluation: the poll time, whether
an active session was seen, the observed total bytes (none when no counter
could be derived), and whether the attribution confidence admits stall
measurement (`attribution_confidence in {"high", "medium"}`, and not the
`http_fallback` source). -/
structure StallObs where
  now : Nat
  active_session : Bool
  observed_total_bytes : Option Nat
  stall_measurement_allowed : Bool
deriving DecidableEq

/-- One stall evaluation step (boot.py lines 2027–2086), returning the updated
TransferState and the `add_boot_log` events emitted, in order.  Time
differences use truncated subtraction, matching the source's
`max(int(...), 0)` clamps. -/
def stallStep (stallThreshold progressLogInterval : Nat) (t : TransferSt)
    (o : StallObs) : TransferSt × List String :=
  match o.observed_total_bytes, o.active_session && o.stall_measurement_allowed with
  | some n, true =>
      (match t.stall_last_total_bytes with
       | none =>
           ({ t with
                stall_state := "active"
                stall_last_total_bytes := some n
                stall_last_progress_at := some o.now }, [])
       | some p =>
           if n > p then
             let shouldLog : Bool :=
               match t.stall_last_progress_log_at with
               | none => true
               | some lp => decide (o.now - lp ≥ progressLogInterval)
             ({ t with
                  stall_state := "active"
                  stall_last_total_bytes := some n
                  stall_last_progress_at := some o.now
                  stall_last_progress_log_at :=
                    if shouldLog then some o.now else t.stall_last_progress_log_at },
              (if shouldLog then ["windows_install_progress"] else []) ++
              (if t.stall_state = "stalled" then ["windows_install_resumed"] else []))
           else
             let lpd := match t.stall_last_progress_at with
               | none => o.now
               | some v => v
             let stallSeconds := o.now - lpd
             let stalled : Bool := decide (stallSeconds ≥ stallThreshold)
             ({ t with
                  stall_state := if stalled then "stalled" else "active"
                  stall_last_total_bytes := some n
                  stall_last_progress_at := some lpd },
              if stalled && !(t.stall_state = "stalled" : Bool) then
                ["windows_install_stalled"]
              else []))
  | _, _ =>
      if !o.active_session then
        ({ t with stall_state := "idle" }, [])
      else if o.active_session && !o.stall_measurement_allowed then
        ({ t with stall_state := "active_unattributed" }, [])
      else
        (t, [])

/-! ## The persistence layer's method surface (`Database`, database.py)

Used to settle whether the metrics/stall-update and transfer-reset paths can
complete the calls they make into the persistence layer: invoking an
attribute a Python object does not have raises `AttributeError`. -/

/-- Every method defined on `Database` in `backend/app/database.py`. -/
def databaseMethods : List String :=
  ["__init__", "_init_files", "_read_json", "_write_json", "_now_iso",
   "get_device", "get_all_devices", "create_device", "update_device",
   "delete_device",
   "get_image", "get_all_images", "create_image", "update_image",
   "delete_image",
   "get_os_installer", "get_all_os_installers", "create_os_installer",
   "get_kernel_set", "get_all_kernel_sets", "create_kernel_set",
   "record_unknown_device", "get_unknown_device", "get_all_unknown_devices",
   "remove_unknown_device",
   "add_boot_log", "get_boot_logs", "_normalize_mac",
   "add_device_transfer", "get_device_transfer"]

/-- Python attribute dispatch on a `Database` instance: a call to a method the
class does not define raises `AttributeError`. -/
def callDbMethod (m : String) : Except String Unit :=
  if databaseMethods.contains m then .ok () else .error ("AttributeError: " ++ m)

/-- Run a sequence of `Database` method invocations, stopping at the first
raised `AttributeError`. -/
def runDbCalls : List String → Except String Unit
  | [] => .ok ()
  | m :: rest =>
      match callDbMethod m with
      | .error e => .error e
      | .ok _ => runDbCalls rest

/-- The `Database` methods invoked, in order, by the
`POST /devices/{mac}/transfer/reset` endpoint
(`reset_device_transfer_state`, boot.py lines 2136–2150) once the device
exists. -/
def resetEndpointDbCalls : List String :=
  ["get_device", "reset_device_transfer", "update_device_transfer_fields",
   "add_boot_log"]

/-- The `Database` method invoked by the stall-update path of
`get_device_metrics` when the device has no active session (boot.py lines
2083–2084). -/
def stallIdleUpdateDbCalls : List String :=
  ["update_device_transfer_fields"]

/-! ## Reachable persisted states -/

/-- States reachable from the empty store by the exposed lifecycle operations
(any inputs, any daemon/command outcomes). -/
inductive Reachable : SysState → Prop where
  | empty : Reachable emptyState
  | create (s : SysState) (now : Nat) (name : String) (size_gb : Nat)
      (truncOk : Bool) (regFail : Option RegStep) :
      Reachable s → Reachable (create_image s now name size_gb truncOk regFail).1
  | copy (s : SysState) (now : Nat) (src dest : String) (cpOk : Bool)
      (regFail : Option RegStep) :
      Reachable s → Reachable (copy_image s now src dest cpOk regFail).1
  | rename (s : SysState) (now : Nat) (src dest : String) (delOldOk : Bool)
      (regDest regSrcAgain : Option RegStep) :
      Reachable s → Reachable (rename_image s now src dest delOldOk regDest regSrcAgain).1
  | link (s : SysState) (now : Nat) (image mac : String) :
      Reachable s → Reachable (link_device s now image mac).1
  | unlink (s : SysState) (now : Nat) (mac : String) :
      Reachable s → Reachable (unlink_device s now mac).1

/-- Number of persisted images whose `assigned_to` equals the given MAC. -/
def assignedCount (st : SysState) (mac : String) : Nat :=
  (st.images.filter (fun p => p.2.assigned_to = some mac)).length

/-! ## Claim theorems -/

/-- C2: the claim that no exposed operation raises across the module boundary
fails in the code: the transfer-reset endpoint's persistence-call sequence
(and likewise the stall-update write of the metrics path) invokes `Database`
methods that `Database` does not define, so the call raises `AttributeError`
instead of completing. -/
theorem resetAndStallPathsRaiseAttributeError :
    runDbCalls resetEndpointDbCalls = .error "AttributeError: reset_device_transfer"
    ∧ runDbCalls stallIdleUpdateDbCalls
        = .error "AttributeError: update_device_transfer_fields" := by
  constructor <;> rfl

/-- The C5 scenario's poll at time `n`: active session, observed total 100,
confidence sufficient. -/
def c5obs (n : Nat) : StallObs := ⟨n, true, some 100, true⟩

/-- C5 scenario, poll at t=0 from the reset state. -/
def c5r1 : TransferSt × List String := stallStep 180 30 resetTransferSt (c5obs 0)

/-- C5 scenario, poll at t=90. -/
def c5r2 : TransferSt × List String := stallStep 180 30 c5r1.1 (c5obs 90)

/-- C5 scenario, poll at t=181. -/
def c5r3 : TransferSt × List String := stallStep 180 30 c5r2.1 (c5obs 181)

/-- C5 scenario, a further unchanged poll at t=240. -/
def c5r4 : TransferSt × List String := stallStep 180 30 c5r3.1 (c5obs 240)

/-- C5: with `stall_threshold = 180`, confidence sufficient on every poll and
an active session, byte totals 100, 100, 100 observed at t = 0, 90, 181 from
the reset state yield `stall_state = "active"` after the t=0 poll (first
observation establishes the baseline) and after the t=90 poll, and
`"stalled"` after the t=181 poll with the one-time stalled log event emitted
exactly on the active→stalled edge (a further unchanged poll at t=240 emits
no second event). -/
theorem stallSequenceActiveActiveStalled :
    c5r1.1.stall_state = "active" ∧ c5r1.2 = []
    ∧ c5r2.1.stall_state = "active" ∧ c5r2.2 = []
    ∧ c5r3.1.stall_state = "stalled" ∧ c5r3.2 = ["windows_install_stalled"]
    ∧ c5r4.1.stall_state = "stalled" ∧ c5r4.2 = [] := by
  decide

/-! ### Registration-step lemmas -/

/-- Unfolding `registerTarget` when the add-LUN step fails: the bare target
from the create step stays on the daemon. -/
theorem registerTarget_addLun_eq (d : List Target) (n p : String) :
    registerTarget d n p (some RegStep.addLun)
      = (d ++ [⟨nextTid d, iqn n, none, false⟩], .error (stepError RegStep.addLun)) := by
  simp [registerTarget]

/-- Unfolding `registerTarget` when the bind step fails: the target with its
LUN stays on the daemon. -/
theorem registerTarget_bind_eq (d : List Target) (n p : String) :
    registerTarget d n p (some RegStep.bind)
      = (setLun (d ++ [⟨nextTid d, iqn n, none, false⟩]) (nextTid d) p,
         .error (stepError RegStep.bind)) := by
  simp [registerTarget]

/-- Unfolding `registerTarget` on full success. -/
theorem registerTarget_none_eq (d : List Target) (n p : String) :
    registerTarget d n p none
      = (setBound (setLun (d ++ [⟨nextTid d, iqn n, none, false⟩]) (nextTid d) p) (nextTid d),
         .ok (nextTid d, iqn n)) := by
  simp [registerTarget]

/-- A fully successful registration leaves the bound target with its LUN on
the daemon. -/
theorem registerTarget_none_mem (d : List Target) (n p : String) :
    (⟨nextTid d, iqn n, some p, true⟩ : Target) ∈ (registerTarget d n p none).1 := by
  rw [registerTarget_none_eq]
  have h0 : (⟨nextTid d, iqn n, none, false⟩ : Target)
      ∈ d ++ [⟨nextTid d, iqn n, none, false⟩] :=
    List.mem_append_right _ (List.mem_singleton_self _)
  have h1 : (⟨nextTid d, iqn n, some p, false⟩ : Target)
      ∈ setLun (d ++ [⟨nextTid d, iqn n, none, false⟩]) (nextTid d) p := by
    have := List.mem_map_of_mem
      (fun tgt => if tgt.tid = nextTid d then { tgt with lun := some p } else tgt) h0
    simpa [setLun] using this
  have := List.mem_map_of_mem
    (fun tgt => if tgt.tid = nextTid d then { tgt with bound := true } else tgt) h1
  simpa [setBound] using this

/-- C3 counterexample: registering a first target on an empty daemon with the
add-LUN step failing returns the step-tagged error, yet the target created by
the first step is left registered on the daemon — refuting the claim that the
earlier step's target is not left registered after a failure. -/
theorem registerTargetLunFailureLeavesTargetCE :
    (registerTarget [] "img1" (filePathOf "img1") (some RegStep.addLun)).2
      = Except.error "tgtadm add LUN failed"
    ∧ ¬ (∀ t ∈ (registerTarget [] "img1" (filePathOf "img1") (some RegStep.addLun)).1,
          t.targetName ≠ iqn "img1") :=
  ⟨rfl, by decide⟩

/-- C3 (amended): on a failure at the attach-LUN or bind step,
`_register_target` returns an error identifying the failing step, but performs
no cleanup: the target created by the earlier create step remains registered
on the daemon. -/
theorem registerTargetNoCleanupOnFailure (d : List Target) (n p : String)
    (fail : RegStep) (h : fail = RegStep.addLun ∨ fail = RegStep.bind) :
    (registerTarget d n p (some fail)).2 = .error (stepError fail)
    ∧ ∃ t ∈ (registerTarget d n p (some fail)).1, t.targetName = iqn n := by
  rcases h with h | h <;> subst h
  · rw [registerTarget_addLun_eq]
    exact ⟨rfl, ⟨nextTid d, iqn n, none, false⟩,
      List.mem_append_right _ (List.mem_singleton_self _), rfl⟩
  · rw [registerTarget_bind_eq]
    refine ⟨rfl, ?_⟩
    have h0 : (⟨nextTid d, iqn n, none, false⟩ : Target)
        ∈ d ++ [⟨nextTid d, iqn n, none, false⟩] :=
      List.mem_append_right _ (List.mem_singleton_self _)
    have h1 : (⟨nextTid d, iqn n, some p, false⟩ : Target)
        ∈ setLun (d ++ [⟨nextTid d, iqn n, none, false⟩]) (nextTid d) p := by
      have := List.mem_map_of_mem
        (fun tgt => if tgt.tid = nextTid d then { tgt with lun := some p } else tgt) h0
      simpa [setLun] using this
    exact ⟨⟨nextTid d, iqn n, some p, false⟩, h1, rfl⟩

/-- C3 witness: the no-cleanup behavior at a concrete input. -/
theorem registerTargetNoCleanupOnFailure_witness :
    (registerTarget [] "x" (filePathOf "x") (some RegStep.addLun)).2
        = .error (stepError RegStep.addLun)
    ∧ ∃ t ∈ (registerTarget [] "x" (filePathOf "x") (some RegStep.addLun)).1,
        t.targetName = iqn "x" :=
  registerTargetNoCleanupOnFailure [] "x" (filePathOf "x") RegStep.addLun (Or.inl rfl)

/-- C4 counterexample: a target reporting exactly one session with no remote
IP exposed, no native counters, exactly one socket globally and no active
target in the global listing — `get_image_connection_metrics` attributes the
socket's counters with `attribution_confidence = "high"`, not `"medium"`. -/
theorem metricsHintCaseNotMediumCE :
    let inp : MetricsIn :=
      { connectionCount := 1
        remoteIps := []
        readBytes := none
        writeBytes := none
        rxBytes := none
        txBytes := none
        socketStats := [("10.0.0.5", ⟨500, 300⟩)]
        targets := [] }
    (connectionMetrics inp).network.source = "socket_counters"
    ∧ (connectionMetrics inp).attribution_confidence = "high"
    ∧ ¬ (connectionMetrics inp).attribution_confidence = "medium" := by
  decide

/-- C4 (amended): in the hint case — exactly one active session reported, no
remote IP matched, no native counters, exactly one socket globally and at
most one active target — `get_image_connection_metrics` attributes the
socket's counters with sources `socket_counters` /
`socket_counters_estimate`, but with `attribution_confidence = "high"`, the
same as the matched case; the `medium` confidence tag is not produced by this
function. -/
theorem metricsSingleSocketHintHighConfidence (ip : String) (e : SockEntry)
    (targets : List TargetView)
    (hat : activeTargetCount targets ≤ 1) :
    connectionMetrics ⟨1, [], none, none, none, none, [(ip, e)], targets⟩
      = ⟨"high", true, 1, [],
         ⟨some e.rx_bytes, some e.tx_bytes, "socket_counters"⟩,
         ⟨some e.tx_bytes, some e.rx_bytes, "socket_counters_estimate"⟩⟩ := by
  have h3 : decide (activeTargetCount targets ≤ 1) = true := decide_eq_true hat
  simp [connectionMetrics, getSock, h3]

/-- C4 witness: the amended hint-case behavior at a concrete input. -/
theorem metricsSingleSocketHintHighConfidence_witness :
    connectionMetrics ⟨1, [], none, none, none, none, [("10.0.0.5", ⟨500, 300⟩)], []⟩
      = ⟨"high", true, 1, [],
         ⟨some 300, some 500, "socket_counters"⟩,
         ⟨some 500, some 300, "socket_counters_estimate"⟩⟩ :=
  metricsSingleSocketHintHighConfidence "10.0.0.5" ⟨500, 300⟩ [] (by decide)

/-- An IP's active-target refcount never exceeds the active-target total
(the refcount counts a sub-collection of the active targets). -/
theorem ipRefcount_le_activeTargetCount (ts : List TargetView) (ip : String) :
    ipRefcount ts ip ≤ activeTargetCount ts :=
  List.length_filter_le _ _

/-- C8: when the image's remote initiator IP is shared by more than one
currently active target (its active-target refcount exceeds 1) and the target
status text exposes no native byte counters, `get_image_connection_metrics`
reports `attribution_confidence = "ambiguous"` and performs no socket-counter
attribution: both the `network` and `disk_io` views stay unpopulated with
source `unavailable`, for every socket table and connection count. -/
theorem metricsSharedIpAmbiguous (cc : Nat) (ip : String)
    (ss : List (String × SockEntry)) (ts : List TargetView)
    (hip : 1 < ipRefcount ts ip) :
    (connectionMetrics ⟨cc, [ip], none, none, none, none, ss, ts⟩).attribution_confidence
      = "ambiguous"
    ∧ (connectionMetrics ⟨cc, [ip], none, none, none, none, ss, ts⟩).network
      = ⟨none, none, "unavailable"⟩
    ∧ (connectionMetrics ⟨cc, [ip], none, none, none, none, ss, ts⟩).disk_io
      = ⟨none, none, "unavailable"⟩ := by
  have hat : ¬ activeTargetCount ts ≤ 1 := fun hle =>
    absurd (lt_of_lt_of_le hip (ipRefcount_le_activeTargetCount ts ip)) (not_lt.mpr hle)
  have hat2 : decide (activeTargetCount ts ≤ 1) = false := decide_eq_false hat
  have hip2 : decide (ipRefcount ts ip ≤ 1) = false :=
    decide_eq_false (Nat.not_le.mpr hip)
  have hip3 : decide (1 < ipRefcount ts ip) = true := decide_eq_true hip
  have h0 : (0 : Nat) < max cc 1 :=
    lt_of_lt_of_le Nat.one_pos (Nat.le_max_right cc 1)
  have hact : decide (max cc 1 > 0) = true := decide_eq_true h0
  simp [connectionMetrics, hact, hat2, hip2, hip3]

/-- C8 witness: two active targets sharing one remote IP, no native counters;
the result is `ambiguous` with both byte views unpopulated. -/
theorem metricsSharedIpAmbiguous_witness :
    (connectionMetrics ⟨2, ["10.0.0.9"], none, none, none, none,
        [("10.0.0.9", ⟨500, 300⟩)],
        [⟨true, ["10.0.0.9"]⟩, ⟨true, ["10.0.0.9"]⟩]⟩).attribution_confidence
      = "ambiguous"
    ∧ (connectionMetrics ⟨2, ["10.0.0.9"], none, none, none, none,
        [("10.0.0.9", ⟨500, 300⟩)],
        [⟨true, ["10.0.0.9"]⟩, ⟨true, ["10.0.0.9"]⟩]⟩).network
      = ⟨none, none, "unavailable"⟩
    ∧ (connectionMetrics ⟨2, ["10.0.0.9"], none, none, none, none,
        [("10.0.0.9", ⟨500, 300⟩)],
        [⟨true, ["10.0.0.9"]⟩, ⟨true, ["10.0.0.9"]⟩]⟩).disk_io
      = ⟨none, none, "unavailable"⟩ :=
  metricsSharedIpAmbiguous 2 "10.0.0.9"
    [("10.0.0.9", ⟨500, 300⟩)]
    [⟨true, ["10.0.0.9"]⟩, ⟨true, ["10.0.0.9"]⟩]
    (by decide)

/-! ### Association-list lemmas -/

theorem getA_updA_self {α : Type} (l : List (String × α)) (k : String) (f : α → α) :
    getA (updA l k f) k = (getA l k).map f := by
  induction l with
  | nil => rfl
  | cons p rest ih =>
      obtain ⟨a, b⟩ := p
      by_cases h : a = k <;> simp [updA, getA, h, ih]

theorem getA_updA_ne {α : Type} (l : List (String × α)) (k k' : String) (f : α → α)
    (h : k' ≠ k) : getA (updA l k f) k' = getA l k' := by
  induction l with
  | nil => rfl
  | cons p rest ih =>
      obtain ⟨a, b⟩ := p
      by_cases h1 : a = k
      · subst h1
        simp [updA, getA, Ne.symm h]
      · by_cases h2 : a = k' <;> simp [updA, getA, h, h1, h2, ih]

theorem getA_setA_self {α : Type} (l : List (String × α)) (k : String) (v : α) :
    getA (setA l k v) k = some v := by
  induction l with
  | nil => simp [setA, getA]
  | cons p rest ih =>
      obtain ⟨a, b⟩ := p
      by_cases h : a = k <;> simp [setA, getA, h, ih]

theorem getA_setA_ne {α : Type} (l : List (String × α)) (k k' : String) (v : α)
    (h : k' ≠ k) : getA (setA l k v) k' = getA l k' := by
  induction l with
  | nil => simp [setA, getA, Ne.symm h]
  | cons p rest ih =>
      obtain ⟨a, b⟩ := p
      by_cases h1 : a = k
      · subst h1
        simp [setA, getA, Ne.symm h]
      · by_cases h2 : a = k' <;> simp [setA, getA, h, h1, h2, ih]

theorem getA_delA_ne {α : Type} (l : List (String × α)) (k k' : String)
    (h : k' ≠ k) : getA (delA l k) k' = getA l k' := by
  induction l with
  | nil => rfl
  | cons p rest ih =>
      obtain ⟨a, b⟩ := p
      by_cases h1 : a = k
      · subst h1
        simp [delA, getA, Ne.symm h]
      · by_cases h2 : a = k' <;> simp [delA, getA, h, h1, h2, ih]

/-! ### C1: the one-image-per-MAC invariant -/

/-- State after creating images img1 and img2 on a fresh deployment. -/
def c1s2 : SysState :=
  (create_image (create_image emptyState 0 "img1" 4 true none).1 0 "img2" 4 true none).1

/-- ... then linking img1, then img2, to the same MAC. -/
def c1s4 : SysState :=
  (link_device (link_device c1s2 1 "img1" "aa:bb:cc:dd:ee:01").1 2 "img2"
    "aa:bb:cc:dd:ee:01").1

/-- C1 counterexample: a state reachable by create, create, link, link in
which two Image records simultaneously carry `assigned_to =
"aa:bb:cc:dd:ee:01"` — the second `link_device` succeeds without clearing the
first image's assignment, refuting the at-most-one-image-per-MAC
invariant. -/
theorem linkSecondImageSameMacCE :
    Reachable c1s4 ∧ ¬ assignedCount c1s4 "aa:bb:cc:dd:ee:01" ≤ 1 := by
  constructor
  · exact Reachable.link _ 2 "img2" "aa:bb:cc:dd:ee:01"
      (Reachable.link _ 1 "img1" "aa:bb:cc:dd:ee:01"
        (Reachable.create _ 0 "img2" 4 true none
          (Reachable.create emptyState 0 "img1" 4 true none Reachable.empty)))
  · decide

/-- C1 (amended): `link_device` does not maintain at-most-one-image-per-MAC:
if image `i1` is assigned to `mac` and image `i2` is unassigned, then
`link_device(i2, mac)` succeeds and leaves both `i1` and `i2` simultaneously
assigned to `mac`. -/
theorem linkDeviceLeavesBothAssigned (st : SysState) (now : Nat)
    (i1 i2 mac : String) (r1 r2 : ImageRec)
    (h1 : getA st.images i1 = some r1) (ha1 : r1.assigned_to = some mac)
    (h2 : getA st.images i2 = some r2) (ha2 : r2.assigned_to = none)
    (hne : i1 ≠ i2) :
    (∃ msg, (link_device st now i2 mac).2 = .ok msg)
    ∧ (∃ q1, getA (link_device st now i2 mac).1.images i1 = some q1
        ∧ q1.assigned_to = some mac)
    ∧ getA (link_device st now i2 mac).1.images i2
        = some { r2 with assigned_to := some mac, status := "linked" } := by
  have himg : (link_device st now i2 mac).1.images
      = updA st.images i2
          (fun r => { r with assigned_to := some mac, status := "linked" }) := by
    simp [link_device, h2, ha2, truthyOpt]
  refine ⟨⟨s!"Device {mac} linked to image \x27{i2}\x27", ?_⟩, ?_, ?_⟩
  · simp [link_device, h2, ha2, truthyOpt]
  · refine ⟨r1, ?_, ha1⟩
    rw [himg, getA_updA_ne _ _ _ _ hne, h1]
  · rw [himg, getA_updA_self, h2]
    rfl

/-- C1 witness: the amended behavior at a concrete two-image state. -/
theorem linkDeviceLeavesBothAssigned_witness :
    let rA : ImageRec :=
      ⟨"a", "a", 4, "x64", iqn "a", some 1, filePathOf "a", some "m1", "linked", 0, none⟩
    let rB : ImageRec :=
      ⟨"b", "b", 4, "x64", iqn "b", some 2, filePathOf "b", none, "available", 0, none⟩
    let st : SysState := ⟨[], [], [("a", rA), ("b", rB)], []⟩
    (∃ msg, (link_device st 5 "b" "m1").2 = .ok msg)
    ∧ (∃ q1, getA (link_device st 5 "b" "m1").1.images "a" = some q1
        ∧ q1.assigned_to = some "m1")
    ∧ getA (link_device st 5 "b" "m1").1.images "b"
        = some { rB with assigned_to := some "m1", status := "linked" } :=
  linkDeviceLeavesBothAssigned _ 5 "a" "b" "m1" _ _ rfl rfl rfl rfl (by decide)

/-! ### C9: link idempotence -/

/-- Whether an operation result is a success. -/
def isOkE {ε α : Type} : Except ε α → Bool
  | .ok _ => true
  | .error _ => false

/-- C9 counterexample: re-linking an image to the MAC it is already assigned
to succeeds but does not leave the persisted state unchanged — the device
record is rewritten with a fresh `updated_at` stamp (`Database.update_device`
stamps every update), so the state after the call differs from the state
before it. -/
theorem relinkSameMacChangesStateCE :
    let r : ImageRec :=
      ⟨"win", "win", 4, "x64", iqn "win", some 1, filePathOf "win",
       some "m1", "linked", 0, none⟩
    let dv : DeviceRec := ⟨"m1", "x64", "Device-1", true, some "win", 0, none⟩
    let st : SysState := ⟨[], [], [("win", r)], [("m1", dv)]⟩
    isOkE (link_device st 5 "win" "m1").2 = true
    ∧ ¬ ((link_device st 5 "win" "m1").1 = st) := by
  decide

/-- C9 (amended): re-linking an image to its current MAC succeeds and leaves
every linkage field unchanged — the image record is rewritten with identical
values and the device record keeps its `image_id` — but the device record's
`updated_at` timestamp is refreshed to the call time; linking the image to a
different MAC fails with the already-assigned error and changes nothing. -/
theorem linkDeviceIdempotentUpToTimestamp (st : SysState) (now : Nat)
    (i mac mac2 : String) (r : ImageRec) (dv : DeviceRec)
    (h : getA st.images i = some r)
    (ha : r.assigned_to = some mac) (hst : r.status = "linked")
    (hd : getA st.devices mac = some dv)
    (hm : mac ≠ "") (hne2 : mac2 ≠ mac) :
    isOkE (link_device st now i mac).2 = true
    ∧ getA (link_device st now i mac).1.images i = some r
    ∧ (∀ j, j ≠ i → getA (link_device st now i mac).1.images j = getA st.images j)
    ∧ getA (link_device st now i mac).1.devices mac
        = some { dv with image_id := some i, updated_at := some now }
    ∧ (∀ m, m ≠ mac → getA (link_device st now i mac).1.devices m = getA st.devices m)
    ∧ (link_device st now i mac).1.fs = st.fs
    ∧ (link_device st now i mac).1.daemon = st.daemon
    ∧ link_device st now i mac2 = (st, .error ("Image already assigned to " ++ mac)) := by
  have hrec : ({ r with assigned_to := some mac, status := "linked" } : ImageRec) = r := by
    rw [← ha, ← hst]
  have himg : (link_device st now i mac).1.images
      = updA st.images i
          (fun q => { q with assigned_to := some mac, status := "linked" }) := by
    simp [link_device, h, ha, hd]
  have hdev : (link_device st now i mac).1.devices
      = updA st.devices mac
          (fun q => { q with image_id := some i, updated_at := some now }) := by
    simp [link_device, h, ha, hd]
  refine ⟨?_, ?_, ?_, ?_, ?_, ?_, ?_, ?_⟩
  · simp [link_device, h, ha, hd, isOkE]
  · rw [himg, getA_updA_self, h]
    exact congrArg some hrec
  · intro j hj
    rw [himg, getA_updA_ne _ _ _ _ hj]
  · rw [hdev, getA_updA_self, hd]
    rfl
  · intro m hmne
    rw [hdev, getA_updA_ne _ _ _ _ hmne]
  · simp [link_device, h, ha, hd]
  · simp [link_device, h, ha, hd]
  · simp [link_device, h, ha, truthyOpt, hm, hne2, Ne.symm hne2]

/-- C9 witness: the amended behavior at a concrete linked state. -/
theorem linkDeviceIdempotentUpToTimestamp_witness :
    let r : ImageRec :=
      ⟨"win", "win", 4, "x64", iqn "win", some 1, filePathOf "win",
       some "m1", "linked", 0, none⟩
    let dv : DeviceRec := ⟨"m1", "x64", "Device-1", true, some "win", 0, none⟩
    let st : SysState := ⟨[], [], [("win", r)], [("m1", dv)]⟩
    isOkE (link_device st 5 "win" "m1").2 = true
    ∧ getA (link_device st 5 "win" "m1").1.images "win" = some r
    ∧ (∀ j, j ≠ "win" → getA (link_device st 5 "win" "m1").1.images j = getA st.images j)
    ∧ getA (link_device st 5 "win" "m1").1.devices "m1"
        = some { dv with image_id := some "win", updated_at := some 5 }
    ∧ (∀ m, m ≠ "m1" → getA (link_device st 5 "win" "m1").1.devices m = getA st.devices m)
    ∧ (link_device st 5 "win" "m1").1.fs = st.fs
    ∧ (link_device st 5 "win" "m1").1.daemon = st.daemon
    ∧ link_device st 5 "win" "m2" = (st, .error ("Image already assigned to " ++ "m1")) :=
  linkDeviceIdempotentUpToTimestamp _ 5 "win" "m1" "m2" _ _
    rfl rfl rfl rfl (by decide) (by decide)

/-! ### C7: create_image rollback and persistence -/

/-- Unfolding `registerTarget` when the create-target step fails. -/
theorem registerTarget_createTarget_eq (d : List Target) (n p : String) :
    registerTarget d n p (some RegStep.createTarget)
      = (d, .error (stepError RegStep.createTarget)) := by
  simp [registerTarget]

/-- Any failing registration step yields the step-tagged error. -/
theorem registerTarget_some_error (d : List Target) (n p : String) (step : RegStep) :
    ∃ d1, registerTarget d n p (some step) = (d1, .error (stepError step)) := by
  cases step
  · exact ⟨_, registerTarget_createTarget_eq d n p⟩
  · exact ⟨_, registerTarget_addLun_eq d n p⟩
  · exact ⟨_, registerTarget_bind_eq d n p⟩

/-- A `find?` over an append skips a prefix in which nothing is found. -/
theorem find?_append_none {α : Type} (p : α → Bool) (l1 l2 : List α)
    (h : l1.find? p = none) : (l1 ++ l2).find? p = l2.find? p := by
  induction l1 with
  | nil => rfl
  | cons a t ih =>
      cases hpa : p a with
      | true =>
          rw [List.find?_cons_of_pos _ hpa] at h
          exact absurd h (by simp)
      | false =>
          have hpa2 : ¬ p a = true := by simp [hpa]
          rw [List.find?_cons_of_neg _ hpa2] at h
          rw [List.cons_append, List.find?_cons_of_neg _ hpa2]
          exact ih h

/-- An absent backing file means no directory entry carries the stem. -/
theorem fileExists_false_find?_none (fs : List FileEnt) (n : String)
    (h : fileExists fs n = false) :
    fs.find? (fun f => f.stem = n) = none := by
  cases hfind : fs.find? (fun f => f.stem = n) with
  | none => rfl
  | some v =>
      rw [fileExists, hfind] at h
      simp at h

/-- When no backing file with stem `n` exists, removing stem `n` after
appending a fresh file with that stem restores the original directory. -/
theorem removeFile_append_new (fs : List FileEnt) (n : String) (b c : Nat)
    (h : fileExists fs n = false) :
    removeFile (fs ++ [⟨n, b, c⟩]) n = fs := by
  have hall : ∀ f ∈ fs, ¬ (f.stem = n) := by
    have := List.find?_eq_none.mp (fileExists_false_find?_none fs n h)
    simpa using this
  rw [removeFile, List.filter_append]
  have h1 : fs.filter (fun f => f.stem ≠ n) = fs :=
    List.filter_eq_self.mpr (fun f hf => by simpa using hall f hf)
  have h2 : List.filter (fun f => f.stem ≠ n) [(⟨n, b, c⟩ : FileEnt)] = [] := by
    simp
  rw [h1, h2, List.append_nil]

/-- C7: `create_image` fails with the already-exists error and changes nothing
when the backing file exists; on a registration failure after the sparse file
was allocated, the just-created file is removed and the step's error is
returned with no record persisted; and an Image record for the name is
persisted exactly when the operation succeeds (with the registered target's
data and an existing backing file). -/
theorem createImageRollbackAndPersistence (st : SysState) (now : Nat)
    (name : String) (size_gb : Nat) (truncOk : Bool) (regFail : Option RegStep) :
    (fileExists st.fs name = true →
      create_image st now name size_gb truncOk regFail
        = (st, .error s!"Image \x27{name}\x27 already exists"))
    ∧ (fileExists st.fs name = false → truncOk = true → ∀ step, regFail = some step →
        (create_image st now name size_gb truncOk regFail).1.fs = st.fs
        ∧ (create_image st now name size_gb truncOk regFail).1.images = st.images
        ∧ (create_image st now name size_gb truncOk regFail).2
            = .error (stepError step))
    ∧ (isOkE (create_image st now name size_gb truncOk regFail).2 = false →
        (create_image st now name size_gb truncOk regFail).1.images = st.images)
    ∧ (isOkE (create_image st now name size_gb truncOk regFail).2 = true →
        getA (create_image st now name size_gb truncOk regFail).1.images name
          = some ⟨name, name, size_gb, "x64", iqn name, some (nextTid st.daemon),
                  filePathOf name, none, "available", now, none⟩
        ∧ fileExists (create_image st now name size_gb truncOk regFail).1.fs name
            = true) := by
  refine ⟨?_, ?_, ?_, ?_⟩
  · intro hex
    simp [create_image, hex]
  · intro hex htr step hstep
    subst hstep
    subst htr
    obtain ⟨d1, hd1⟩ := registerTarget_some_error st.daemon name (filePathOf name) step
    refine ⟨?_, ?_, ?_⟩
    · simp [create_image, hex, hd1, removeFile_append_new st.fs name _ _ hex]
    · simp [create_image, hex, hd1]
    · simp [create_image, hex, hd1]
  · intro hfail
    by_cases hex : fileExists st.fs name
    · simp [create_image, hex]
    · by_cases htr : truncOk
      · subst htr
        cases regFail with
        | none =>
            have hreg := registerTarget_none_eq st.daemon name (filePathOf name)
            rw [create_image] at hfail
            simp [hex, hreg, isOkE] at hfail
        | some step =>
            obtain ⟨d1, hd1⟩ := registerTarget_some_error st.daemon name (filePathOf name) step
            simp [create_image, hex, hd1]
      · simp [create_image, hex, htr]
  · intro hok
    by_cases hex : fileExists st.fs name
    · rw [create_image] at hok
      simp [hex, isOkE] at hok
    · by_cases htr : truncOk
      · subst htr
        cases regFail with
        | none =>
            have hreg := registerTarget_none_eq st.daemon name (filePathOf name)
            constructor
            · have himgs : (create_image st now name size_gb true none).1.images
                  = setA st.images name
                      ⟨name, name, size_gb, "x64", iqn name, some (nextTid st.daemon),
                       filePathOf name, none, "available", now, none⟩ := by
                simp [create_image, hex, hreg]
              rw [himgs, getA_setA_self]
            · have hfs : (create_image st now name size_gb true none).1.fs
                  = st.fs ++ [⟨name, size_gb * gb, now⟩] := by
                simp [create_image, hex, hreg]
              rw [hfs, fileExists,
                find?_append_none _ _ _ (fileExists_false_find?_none st.fs name (by simpa using hex))]
              simp [List.find?]
        | some step =>
            obtain ⟨d1, hd1⟩ := registerTarget_some_error st.daemon name (filePathOf name) step
            rw [create_image] at hok
            simp [hex, hd1, isOkE] at hok
      · rw [create_image] at hok
        simp [hex, htr, isOkE] at hok

/-- C7 witness: on a fresh deployment, a registration failure at the add-LUN
step removes the allocated file, persists nothing, and returns the step's
error; the already-exists, error, and success clauses are instantiated at the
same input where applicable. -/
theorem createImageRollbackAndPersistence_witness :
    ((create_image emptyState 0 "img" 4 true (some RegStep.addLun)).1.fs
        = emptyState.fs
      ∧ (create_image emptyState 0 "img" 4 true (some RegStep.addLun)).1.images
        = emptyState.images
      ∧ (create_image emptyState 0 "img" 4 true (some RegStep.addLun)).2
        = .error (stepError RegStep.addLun))
    ∧ (getA (create_image emptyState 0 "img" 4 true none).1.images "img"
        = some ⟨"img", "img", 4, "x64", iqn "img", some (nextTid emptyState.daemon),
                filePathOf "img", none, "available", 0, none⟩
      ∧ fileExists (create_image emptyState 0 "img" 4 true none).1.fs "img" = true) :=
  ⟨(createImageRollbackAndPersistence emptyState 0 "img" 4 true
      (some RegStep.addLun)).2.1 rfl rfl RegStep.addLun rfl,
   (createImageRollbackAndPersistence emptyState 0 "img" 4 true none).2.2.2 rfl⟩

/-! ### C6: rename_image -/

/-- Absence of a backing file, element-wise. -/
theorem fileExists_false_iff (fs : List FileEnt) (n : String) :
    fileExists fs n = false ↔ ∀ f ∈ fs, ¬ (f.stem = n) := by
  constructor
  · intro h
    simpa using List.find?_eq_none.mp (fileExists_false_find?_none fs n h)
  · intro h
    rw [fileExists]
    have : fs.find? (fun f => f.stem = n) = none :=
      List.find?_eq_none.mpr (by simpa using h)
    rw [this]
    rfl

/-- Renaming a file to a fresh stem and back restores the directory. -/
theorem renameFile_roundtrip (fs : List FileEnt) (a b : String)
    (hb : fileExists fs b = false) :
    renameFile (renameFile fs a b) b a = fs := by
  induction fs with
  | nil => rfl
  | cons f t ih =>
      have hfb : ¬ (f.stem = b) := (fileExists_false_iff _ _).mp hb f (by simp)
      have htb : fileExists t b = false :=
        (fileExists_false_iff _ _).mpr
          (fun g hg => (fileExists_false_iff _ _).mp hb g (by simp [hg]))
      have ht := ih htb
      by_cases hfa : f.stem = a
      · have e1 : renameFile (f :: t) a b = { f with stem := b } :: renameFile t a b := by
          simp [renameFile, hfa]
        have e2 : renameFile ({ f with stem := b } :: renameFile t a b) b a
            = { { f with stem := b } with stem := a }
                :: renameFile (renameFile t a b) b a := by
          simp [renameFile]
        rw [e1, e2, ht]
        have h2 : ({ { f with stem := b } with stem := a } : FileEnt) = f := by
          rw [← hfa]
        rw [h2]
      · have e1 : renameFile (f :: t) a b = f :: renameFile t a b := by
          simp [renameFile, hfa]
        have e2 : renameFile (f :: renameFile t a b) b a
            = f :: renameFile (renameFile t a b) b a := by
          simp [renameFile, hfb]
        rw [e1, e2, ht]

/-- The record `rename_image` persists under the destination name. -/
def renamedRec (r : ImageRec) (dest : String) (tid : Nat) (now : Nat) : ImageRec :=
  { r with
    id := dest
    name := dest
    tid := some tid
    target_name := iqn dest
    file_path := filePathOf dest
    created_at := now }

/-- C6: renaming an image `src` assigned to MAC `m` to a fresh name `dest`
(record present, destination free, backing files in the expected places):
on success the new record `dest` keeps `assigned_to = m` and the device's
`image_id` is updated to `dest`; on a registration failure after the file
rename, the file is renamed back (the filesystem is restored exactly), the
persisted records are untouched, the source's target is re-registered on the
daemon (backing the source path, bound), and the step's error is returned. -/
theorem renameImagePreservesAssignmentAndRestores
    (st : SysState) (now : Nat) (src dest m : String) (t0 : Nat)
    (r : ImageRec) (dv : DeviceRec) (delOldOk : Bool)
    (hsrc : pyStrip src = src) (hdst : pyStrip dest = dest)
    (hsne : src ≠ "") (hdne : dest ≠ "") (hneq : src ≠ dest)
    (hget : getA st.images src = some r)
    (ha : r.assigned_to = some m) (hm : m ≠ "")
    (htid : r.tid = some t0)
    (hnodst : getA st.images dest = none)
    (hfs : fileExists st.fs src = true)
    (hfd : fileExists st.fs dest = false)
    (hdev : getA st.devices m = some dv) :
    (isOkE (rename_image st now src dest delOldOk none none).2 = true
      ∧ (∃ r2, getA (rename_image st now src dest delOldOk none none).1.images dest
            = some r2
          ∧ r2.assigned_to = some m)
      ∧ getA (rename_image st now src dest delOldOk none none).1.devices m
          = some { dv with image_id := some dest, updated_at := some now })
    ∧ (∀ step : RegStep,
        (rename_image st now src dest delOldOk (some step) none).2
            = .error (stepError step)
        ∧ (rename_image st now src dest delOldOk (some step) none).1.fs = st.fs
        ∧ (rename_image st now src dest delOldOk (some step) none).1.images
            = st.images
        ∧ (rename_image st now src dest delOldOk (some step) none).1.devices
            = st.devices
        ∧ ∃ tgt ∈ (rename_image st now src dest delOldOk (some step) none).1.daemon,
            tgt.targetName = iqn src ∧ tgt.lun = some (filePathOf src)
            ∧ tgt.bound = true) := by
  constructor
  · have hreg := registerTarget_none_eq (deleteTarget st.daemon t0 delOldOk)
      dest (filePathOf dest)
    refine ⟨?_, ?_, ?_⟩
    · simp [rename_image, hsrc, hdst, hsne, hdne, hneq, hget, hnodst, hfs, hfd,
        htid, hreg, isOkE]
    · refine ⟨renamedRec r dest (nextTid (deleteTarget st.daemon t0 delOldOk)) now,
        ?_, ha⟩
      have himg : (rename_image st now src dest delOldOk none none).1.images
          = delA (setA st.images dest
              (renamedRec r dest (nextTid (deleteTarget st.daemon t0 delOldOk)) now))
              src := by
        simp [rename_image, renamedRec, hsrc, hdst, hsne, hdne, hneq, hget, hnodst,
          hfs, hfd, htid, hreg]
      rw [himg, getA_delA_ne _ _ _ (Ne.symm hneq), getA_setA_self]
    · have hdevs : (rename_image st now src dest delOldOk none none).1.devices
          = updA st.devices m
              (fun q => { q with image_id := some dest, updated_at := some now }) := by
        simp [rename_image, hsrc, hdst, hsne, hdne, hneq, hget, hnodst, hfs, hfd,
          htid, hreg, ha, truthyOpt, hm]
      rw [hdevs, getA_updA_self, hdev]
      rfl
  · intro step
    obtain ⟨d2, hregs⟩ := registerTarget_some_error
      (deleteTarget st.daemon t0 delOldOk) dest (filePathOf dest) step
    refine ⟨?_, ?_, ?_, ?_, ?_⟩
    · simp [rename_image, hsrc, hdst, hsne, hdne, hneq, hget, hnodst, hfs, hfd,
        htid, hregs]
    · have hfs2 : (rename_image st now src dest delOldOk (some step) none).1.fs
          = renameFile (renameFile st.fs src dest) dest src := by
        simp [rename_image, hsrc, hdst, hsne, hdne, hneq, hget, hnodst, hfs, hfd,
          htid, hregs]
      rw [hfs2, renameFile_roundtrip st.fs src dest hfd]
    · simp [rename_image, hsrc, hdst, hsne, hdne, hneq, hget, hnodst, hfs, hfd,
        htid, hregs]
    · simp [rename_image, hsrc, hdst, hsne, hdne, hneq, hget, hnodst, hfs, hfd,
        htid, hregs]
    · have hdmn : (rename_image st now src dest delOldOk (some step) none).1.daemon
          = (registerTarget d2 src (filePathOf src) none).1 := by
        simp [rename_image, hsrc, hdst, hsne, hdne, hneq, hget, hnodst, hfs, hfd,
          htid, hregs]
      rw [hdmn]
      exact ⟨_, registerTarget_none_mem d2 src (filePathOf src), rfl, rfl, rfl⟩

/-- Concrete linked image for the C6 witness. -/
def c6r : ImageRec :=
  ⟨"old", "old", 4, "x64", iqn "old", some 7, filePathOf "old",
   some "m1", "linked", 0, none⟩

/-- Concrete device for the C6 witness. -/
def c6dv : DeviceRec := ⟨"m1", "x64", "Device-1", true, some "old", 0, none⟩

/-- Concrete state for the C6 witness. -/
def c6st : SysState :=
  ⟨[⟨"old", 4 * gb, 0⟩], [⟨7, iqn "old", some (filePathOf "old"), true⟩],
   [("old", c6r)], [("m1", c6dv)]⟩

/-- C6 witness: the rename success and rollback behavior at a concrete linked
state. -/
theorem renameImagePreservesAssignmentAndRestores_witness :
    (isOkE (rename_image c6st 1 "old" "new" true none none).2 = true
      ∧ (∃ r2, getA (rename_image c6st 1 "old" "new" true none none).1.images "new"
            = some r2
          ∧ r2.assigned_to = some "m1")
      ∧ getA (rename_image c6st 1 "old" "new" true none none).1.devices "m1"
          = some { c6dv with image_id := some "new", updated_at := some 1 })
    ∧ (∀ step : RegStep,
        (rename_image c6st 1 "old" "new" true (some step) none).2
            = .error (stepError step)
        ∧ (rename_image c6st 1 "old" "new" true (some step) none).1.fs = c6st.fs
        ∧ (rename_image c6st 1 "old" "new" true (some step) none).1.images
            = c6st.images
        ∧ (rename_image c6st 1 "old" "new" true (some step) none).1.devices
            = c6st.devices
        ∧ ∃ tgt ∈ (rename_image c6st 1 "old" "new" true (some step) none).1.daemon,
            tgt.targetName = iqn "old" ∧ tgt.lun = some (filePathOf "old")
            ∧ tgt.bound = true) :=
  renameImagePreservesAssignmentAndRestores c6st 1 "old" "new" "m1" 7 c6r c6dv true
    (by decide) (by decide) (by decide) (by decide) (by decide)
    rfl rfl (by decide) rfl rfl rfl rfl rfl

/-! ### C10: list_images -/

/-- C10: `list_images` never omits anything: every `.img` file whose stem has
no persisted record appears as an entry with status `unregistered`, no
assignment, `file_exists = true` and sizes derived from the file's actual
byte size; and every persisted record appears with `file_exists` reflecting
whether its backing file is present. -/
theorem listImagesCompleteness (st : SysState) :
    (∀ f ∈ st.fs, (∀ p ∈ st.images, ¬ (p.2.id = f.stem)) →
      ∃ e ∈ list_images st, e.id = f.stem
        ∧ e.status = "unregistered"
        ∧ e.assigned_to = none
        ∧ e.file_exists = true
        ∧ e.actual_size_bytes = some f.bytes
        ∧ e.actual_size_gb_h = some (gbHundredths f.bytes)
        ∧ e.size_gb_h = gbHundredths f.bytes)
    ∧ (∀ p ∈ st.images,
        ∃ e ∈ list_images st, e.id = p.2.id
          ∧ e.file_exists = fileExists st.fs p.2.id) := by
  constructor
  · intro f hf h
    have hnot : st.images.any (fun p => p.2.id = f.stem) = false := by
      rw [List.any_eq_false]
      intro p hp
      simpa using h p hp
    have hmemf : f ∈ st.fs.filter
        (fun f => ¬ st.images.any (fun p => p.2.id = f.stem)) :=
      List.mem_filter.mpr ⟨hf, by simp [hnot]⟩
    refine ⟨orphanEntry f, ?_, rfl, rfl, rfl, rfl, rfl, rfl, rfl⟩
    exact List.mem_append_right _ (List.mem_map_of_mem orphanEntry hmemf)
  · intro p hp
    have hfe : fileExists st.fs p.2.id = (findFile st.fs p.2.id).isSome := rfl
    refine ⟨enrichImage st.fs p.2,
      List.mem_append_left _
        (List.mem_map_of_mem (fun q => enrichImage st.fs q.2) hp), ?_, ?_⟩
    · cases hff : findFile st.fs p.2.id <;> simp [enrichImage, hff]
    · cases hff : findFile st.fs p.2.id <;> simp [enrichImage, hff, hfe]

/-- Concrete record for the C10 witness. -/
def c10rec : ImageRec :=
  ⟨"a", "a", 4, "x64", iqn "a", some 1, filePathOf "a", none, "available", 0, none⟩

/-- Concrete state for the C10 witness: one tracked image whose file is
missing, and one untracked `.img` file. -/
def c10st : SysState := ⟨[⟨"b", 42, 7⟩], [], [("a", c10rec)], []⟩

/-- C10 witness: the untracked file "b" is listed as unregistered with its
actual size, and the tracked record "a" is listed with `file_exists`
reflecting its missing backing file. -/
theorem listImagesCompleteness_witness :
    (∃ e ∈ list_images c10st, e.id = "b"
      ∧ e.status = "unregistered"
      ∧ e.assigned_to = none
      ∧ e.file_exists = true
      ∧ e.actual_size_bytes = some 42
      ∧ e.actual_size_gb_h = some (gbHundredths 42)
      ∧ e.size_gb_h = gbHundredths 42)
    ∧ (∃ e ∈ list_images c10st, e.id = "a"
        ∧ e.file_exists = fileExists c10st.fs "a") :=
  ⟨(listImagesCompleteness c10st).1 ⟨"b", 42, 7⟩ (by decide) (by decide),
   (listImagesCompleteness c10st).2 ("a", c10rec) (by decide)⟩

end NetbootOrch
